import Mathlib

/-!
Verification of the MedicalCard component (src/components/MedicalCard.tsx).

The repository holds two revisions of the component in one file.  The later,
most complete revision (the one with the localStorage persistence cache, the
preview handler and the write-failure recovery) is the one the specification
adopts as authoritative behavior, and is the one embedded here; where a claim
also concerns the earlier revision (its five-entry `statusMap` with the
`?? statusMap.unknown` fallback), that part is embedded separately as
`statusMapFull`.

Modelling conventions:
- A browser `File` handle is its observable triple (name, byte size, MIME
  type); sizes are `Nat`.
- `new Date().toISOString()` is a parameter `now : String` of the handler.
- `localStorage` is an association list from keys to stored strings; a stored
  string is only ever consumed by `JSON.parse`, so it is modelled by its
  parse outcome: `Stored.unparseable` (parse throws) or `Stored.parsed j`
  for a JSON value `j`.  `JSON.stringify` of a metadata record produces a
  string that parses back to the corresponding JSON object.
- Side effects (`alert`, `console.warn`, the `onFileUpload` / `onStatusChange`
  callbacks) are an emitted event list, in program order.
- A possible `localStorage.setItem` failure (quota, unavailability) is the
  boolean parameter `writeFails`.
-/

/-- FileData from the source: name, byte size, MIME type, optional upload
timestamp (ISO 8601 string). -/
structure FileData where
  name : String
  size : Nat
  type : String
  uploadedAt : Option String
deriving Repr, DecidableEq

/-- A live browser File handle, by its observable fields used in the code. -/
structure JsFile where
  name : String
  size : Nat
  type : String
deriving Repr, DecidableEq

/-- JSON values, the possible results of a successful JSON.parse. -/
inductive Json where
  | null : Json
  | bool (b : Bool) : Json
  | num (n : Int) : Json
  | str (s : String) : Json
  | arr (elems : List Json) : Json
  | obj (fields : List (String × Json)) : Json
deriving Repr

/-- A string sitting in localStorage, modelled by its JSON.parse outcome. -/
inductive Stored where
  | unparseable : Stored
  | parsed (j : Json) : Stored
deriving Repr

/-- JavaScript truthiness of a JSON value (null, false, 0, and the empty
string are falsy; objects and arrays are always truthy). -/
def Json.truthy : Json → Bool
  | .null => false
  | .bool b => b
  | .num n => n != 0
  | .str s => s != ""
  | .arr _ => true
  | .obj _ => true

/-- Property access `j[k]` on a JSON value: a field of an object, otherwise
absent (JavaScript `undefined`, which is falsy). -/
def Json.getField : Json → String → Option Json
  | .obj fields, k => fields.lookup k
  | _, _ => none

/-- Truthiness of a possibly-absent value (`undefined` is falsy). -/
def truthyOpt : Option Json → Bool
  | none => false
  | some j => j.truthy

/-- JSON.stringify of a FileData record, as the JSON object it parses back
to.  An absent `uploadedAt` field is omitted, as JSON.stringify omits
`undefined` properties. -/
def jsonOfFileData (fd : FileData) : Json :=
  .obj ([("name", .str fd.name), ("size", .num fd.size), ("type", .str fd.type)] ++
    (match fd.uploadedAt with
     | some t => [("uploadedAt", Json.str t)]
     | none => []))

/-- Reading the metadata fields back off a parsed JSON object, as the
component reads `.name`, `.size`, `.type`, `.uploadedAt` off the value
returned by JSON.parse. -/
def fileDataOfJson (j : Json) : FileData :=
  { name := match j.getField "name" with | some (.str s) => s | _ => ""
    size := match j.getField "size" with | some (.num n) => n.toNat | _ => 0
    type := match j.getField "type" with | some (.str s) => s | _ => ""
    uploadedAt := match j.getField "uploadedAt" with | some (.str s) => some s | _ => none }

/-- localStorage contents: an association list from keys to stored strings. -/
def Storage := List (String × Stored)

/-- localStorage.getItem. -/
def Storage.getItem (st : Storage) (k : String) : Option Stored :=
  List.lookup k st

/-- localStorage.setItem: overwrite the entry at the key or append it. -/
def Storage.setItem : Storage → String → Stored → Storage
  | [], k, v => [(k, v)]
  | (k', v') :: rest, k, v =>
    if k' = k then (k, v) :: rest else (k', v') :: Storage.setItem rest k v

/-- localStorage.removeItem. -/
def Storage.removeItem : Storage → String → Storage
  | [], _ => []
  | (k', v') :: rest, k =>
    if k' = k then rest else (k', v') :: Storage.removeItem rest k

/-- The regex replace `worker.name.replace(/\s+/g, "_")`: every maximal run
of whitespace becomes a single underscore.  `afterWs` records whether the
previous character was part of a whitespace run already replaced. -/
def collapseWsAux : Bool → List Char → List Char
  | _, [] => []
  | afterWs, c :: rest =>
    if c.isWhitespace then
      (if afterWs then [] else ['_']) ++ collapseWsAux true rest
    else
      c :: collapseWsAux false rest

/-- Normalized worker name: whitespace runs replaced by underscores. -/
def normalizeName (s : String) : String :=
  String.mk (collapseWsAux false s.data)

/-- The per-worker cache key `medical_result_<normalized worker name>`. -/
def storageKey (workerName : String) : String :=
  "medical_result_" ++ normalizeName workerName

/-- The switch inside `allowedExtensions`: map a MIME type to its
human-readable name, defaulting to the MIME string itself. -/
def extOf (t : String) : String :=
  if t = "application/pdf" then "PDF"
  else if t = "application/vnd.openxmlformats-officedocument.wordprocessingml.document" then "DOCX"
  else if t = "application/msword" then "DOC"
  else t

/-- The default `allowedFileTypes` prop. -/
def defaultAllowedFileTypes : List String :=
  ["application/pdf",
   "application/vnd.openxmlformats-officedocument.wordprocessingml.document",
   "application/msword"]

/-- Observable side effects of the handlers, in program order. -/
inductive Event where
  | alertMsg (msg : String) : Event
  | warn (msg : String) : Event
  | fileUpload (fd : FileData) : Event
  | statusChange (s : String) : Event
deriving Repr, DecidableEq

/-- The component state touched by handleFileUpload: the uploaded-file
metadata state, the live file handle, and the persisted cache. -/
structure UploadState where
  uploadedFile : Option FileData
  fileObject : Option JsFile
  cache : Storage

/-- handleFileUpload from the source (the revision with the persistence
cache).  `now` stands for `new Date().toISOString()`; `writeFails` tells
whether `localStorage.setItem` throws.  Returns the new state and the
events (alerts, warnings, callback invocations) in program order. -/
def handleFileUpload (maxFileSizeMB : Nat) (allowedFileTypes : List String)
    (workerName : String) (st : UploadState) (file : JsFile) (now : String)
    (writeFails : Bool) : UploadState × List Event :=
  if file.size > maxFileSizeMB * 1024 * 1024 then
    (st, [.alertMsg ("File size must be less than " ++ toString maxFileSizeMB ++ "MB")])
  else if !(allowedFileTypes.contains file.type) then
    let allowedExtensions := String.intercalate ", " (allowedFileTypes.map extOf)
    (st, [.alertMsg ("Allowed file types: " ++ allowedExtensions)])
  else
    let fileData : FileData :=
      { name := file.name, size := file.size, type := file.type, uploadedAt := some now }
    let key := storageKey workerName
    if writeFails then
      ({ uploadedFile := some fileData, fileObject := some file, cache := st.cache },
        [.warn "Failed to save file data:", .fileUpload fileData, .statusChange "pending"])
    else
      ({ uploadedFile := some fileData, fileObject := some file,
          cache := st.cache.setItem key (.parsed (jsonOfFileData fileData)) },
        [.fileUpload fileData, .statusChange "pending"])

/-- The structural validity check applied to a parsed cache entry on mount:
`parsedFile && parsedFile.name && parsedFile.size && parsedFile.type`. -/
def validParsedFile (j : Json) : Bool :=
  j.truthy && truthyOpt (j.getField "name") && truthyOpt (j.getField "size") &&
    truthyOpt (j.getField "type")

/-- The mount effect that loads saved file info from localStorage.  On a
fresh mount the uploaded-file state starts as the caller-supplied
`resultFile`; the effect adopts a present, parseable and structurally valid
cache entry, removes the entry when parsing throws (the catch branch), and
otherwise leaves state and cache alone.  Returns the resulting displayed
uploaded file and the resulting cache. -/
def loadSavedFile (cache : Storage) (workerName : String)
    (resultFile : Option FileData) : Option FileData × Storage :=
  let key := storageKey workerName
  match cache.getItem key with
  | some .unparseable => (resultFile, cache.removeItem key)
  | some (.parsed j) =>
    if validParsedFile j then (some (fileDataOfJson j), cache) else (resultFile, cache)
  | none => (resultFile, cache)

/-- A status badge display tuple of the earlier revision's `statusMap`
(color token, label, icon component name, background class, text class). -/
structure StatusConfig where
  color : String
  label : String
  icon : String
  bgColor : String
  textColor : String
deriving Repr, DecidableEq

/-- The earlier revision's five-entry `statusMap` record, as key/value
pairs. -/
def statusMapFullList : List (String × StatusConfig) :=
  [("accepted", ⟨"success", "Accepted", "CheckCircle2", "bg-green-100", "text-green-800"⟩),
   ("pending", ⟨"warning", "Pending", "Clock", "bg-yellow-100", "text-yellow-800"⟩),
   ("failed", ⟨"danger", "Failed", "AlertCircle", "bg-red-100", "text-red-800"⟩),
   ("replace", ⟨"danger", "Replace Worker", "UserX", "bg-red-100", "text-red-800"⟩),
   ("unknown", ⟨"default", "Unknown", "AlertCircle", "bg-gray-100", "text-gray-800"⟩)]

/-- The earlier revision's `statusMap[status] ?? statusMap.unknown` lookup. -/
def statusMapFull (s : String) : StatusConfig :=
  (statusMapFullList.lookup s).getD
    ⟨"default", "Unknown", "AlertCircle", "bg-gray-100", "text-gray-800"⟩

/-- A status badge display tuple of the most complete revision's
`statusMap` (label, background, text and border classes). -/
structure StatusConfig3 where
  label : String
  bgColor : String
  textColor : String
  borderColor : String
deriving Repr, DecidableEq

/-- The most complete revision's three-entry `statusMap` record, as
key/value pairs. -/
def statusMap3List : List (String × StatusConfig3) :=
  [("accepted", ⟨"Accepted", "bg-green-100", "text-green-500", "border-green-300"⟩),
   ("pending", ⟨"Pending", "bg-[#FEF9C2]", "text-[#938700]", "border-[#9E9100]"⟩),
   ("replace", ⟨"Replace Worker", "bg-red-100", "text-red-500", "border-red-300"⟩)]

/-- The most complete revision's `statusMap[status]` lookup.  It has no
fallback: a key outside the record yields `undefined`, modelled as `none`. -/
def statusMap3 (s : String) : Option StatusConfig3 :=
  statusMap3List.lookup s

/-- The derived `previewColor` tuple (border, info-bar background, info-bar
text), a conditional over the status string. -/
structure PreviewColor where
  border : String
  infoBg : String
  infoText : String
deriving Repr, DecidableEq

/-- The `previewColor` conditional from the most complete revision. -/
def previewColor (s : String) : PreviewColor :=
  if s = "accepted" then ⟨"#16a34a", "#16a34a", "#ffffff"⟩
  else if s = "pending" then ⟨"#9E9100", "#FEF9C2", "#938700"⟩
  else ⟨"#ef4444", "#ef4444", "#ffffff"⟩

/-- The observable outcome of handleFilePreview. -/
inductive PreviewAction where
  | nothing : PreviewAction
  | openBlobUrl (file : JsFile) : PreviewAction
  | openGoogleViewer (file : JsFile) : PreviewAction
  | alertMsg (msg : String) : PreviewAction
deriving Repr, DecidableEq

/-- handleFilePreview from the most complete revision: with no uploaded
file, do nothing; with a live handle, open a PDF via a blob URL and any
other type through the external document viewer after reading it as a data
URL; with metadata only, alert, with one message for PDF metadata and
another for non-PDF metadata. -/
def handleFilePreview (uploadedFile : Option FileData)
    (fileObject : Option JsFile) : PreviewAction :=
  match uploadedFile with
  | none => .nothing
  | some uf =>
    match fileObject with
    | some fo =>
      if fo.type = "application/pdf" then .openBlobUrl fo
      else .openGoogleViewer fo
    | none =>
      if uf.type = "application/pdf" then
        .alertMsg "Cannot preview DOC/DOCX after reload. PDF preview only works before reload."
      else
        .alertMsg "Preview not available for DOC/DOCX after reload due to browser limitations."

/-- Looking up the key just written returns the just-written value. -/
theorem Storage.getItem_setItem (st : Storage) (k : String) (v : Stored) :
    (st.setItem k v).getItem k = some v := by
  induction st with
  | nil => simp [Storage.setItem, Storage.getItem, List.lookup]
  | cons hd tl ih =>
    obtain ⟨k', v'⟩ := hd
    by_cases h : k' = k
    · simp [Storage.setItem, Storage.getItem, List.lookup, h]
    · have hk : (k == k') = false := by simp [Ne.symm h]
      simpa [Storage.setItem, Storage.getItem, List.lookup, h, hk] using ih

/-- The JSON object written for a metadata record passes the mount-time
structural check exactly when its name and type are non-empty and its size
is non-zero. -/
theorem validParsedFile_jsonOfFileData (fd : FileData) (h1 : fd.name ≠ "")
    (h2 : fd.size ≠ 0) (h3 : fd.type ≠ "") :
    validParsedFile (jsonOfFileData fd) = true := by
  cases fd with
  | mk name size type uploadedAt =>
    cases uploadedAt <;>
      simp_all [validParsedFile, jsonOfFileData, Json.getField, Json.truthy,
        truthyOpt, List.lookup]

/-- Reading the metadata fields back off the JSON object written for a
record recovers the record. -/
theorem fileDataOfJson_jsonOfFileData (fd : FileData) :
    fileDataOfJson (jsonOfFileData fd) = fd := by
  cases fd with
  | mk name size type uploadedAt =>
    cases uploadedAt <;>
      simp [fileDataOfJson, jsonOfFileData, Json.getField, List.lookup]

/-- C1: a candidate file within the size limit and with an allowed MIME type
is accepted: handleFileUpload builds the record
`{name := file.name, size := file.size, type := file.type, uploadedAt := now}`
(`now` standing for `new Date().toISOString()`, an ISO 8601 string), makes it
the current uploaded-file state, and emits exactly one `onFileUpload` with
that record and exactly one `onStatusChange` with exactly "pending" — for
every prior state; the handler never reads the component's status prop, so
the outcome is independent of the status the component had before. -/
theorem C1_valid_upload_accepts (maxFileSizeMB : Nat) (allowedFileTypes : List String)
    (workerName : String) (st : UploadState) (file : JsFile) (now : String)
    (hsize : file.size ≤ maxFileSizeMB * 1024 * 1024)
    (htype : file.type ∈ allowedFileTypes) :
    handleFileUpload maxFileSizeMB allowedFileTypes workerName st file now false =
      ({ uploadedFile := some ⟨file.name, file.size, file.type, some now⟩,
         fileObject := some file,
         cache := st.cache.setItem (storageKey workerName)
           (.parsed (jsonOfFileData ⟨file.name, file.size, file.type, some now⟩)) },
       [.fileUpload ⟨file.name, file.size, file.type, some now⟩,
        .statusChange "pending"]) := by
  unfold handleFileUpload
  rw [if_neg (by omega), if_neg (by simp [htype])]
  rfl

/-- C1 witness: a 2 MiB PDF uploaded for worker "John Doe" under the default
configuration is accepted, stored under `medical_result_John_Doe`, and the
two callbacks fire once each. -/
theorem C1_valid_upload_accepts_witness :
    handleFileUpload 10 defaultAllowedFileTypes "John Doe"
        ⟨none, none, []⟩ ⟨"report.pdf", 2097152, "application/pdf"⟩
        "2026-10-11T00:00:00.000Z" false =
      ({ uploadedFile := some ⟨"report.pdf", 2097152, "application/pdf",
           some "2026-10-11T00:00:00.000Z"⟩,
         fileObject := some ⟨"report.pdf", 2097152, "application/pdf"⟩,
         cache := [("medical_result_John_Doe",
           .parsed (jsonOfFileData ⟨"report.pdf", 2097152, "application/pdf",
             some "2026-10-11T00:00:00.000Z"⟩))] },
       [.fileUpload ⟨"report.pdf", 2097152, "application/pdf",
          some "2026-10-11T00:00:00.000Z"⟩,
        .statusChange "pending"]) := by
  have h := C1_valid_upload_accepts 10 defaultAllowedFileTypes "John Doe"
    ⟨none, none, []⟩ ⟨"report.pdf", 2097152, "application/pdf"⟩
    "2026-10-11T00:00:00.000Z" (by norm_num) (by simp [defaultAllowedFileTypes])
  simpa [Storage.setItem, storageKey, normalizeName, collapseWsAux] using h

/-- C2: an oversized file (byte size strictly above maxFileSizeMB * 1024 *
1024) is rejected with an alert naming the configured limit in MB; the state
(uploaded file, live handle, persisted cache) is unchanged and neither
`onFileUpload` nor `onStatusChange` fires. -/
theorem C2_oversized_rejected (maxFileSizeMB : Nat) (allowedFileTypes : List String)
    (workerName : String) (st : UploadState) (file : JsFile) (now : String)
    (writeFails : Bool) (hsize : file.size > maxFileSizeMB * 1024 * 1024) :
    handleFileUpload maxFileSizeMB allowedFileTypes workerName st file now writeFails =
      (st, [.alertMsg ("File size must be less than " ++ toString maxFileSizeMB ++ "MB")]) ∧
    (∀ fd, Event.fileUpload fd ∉
      (handleFileUpload maxFileSizeMB allowedFileTypes workerName st file now writeFails).2) ∧
    (∀ s, Event.statusChange s ∉
      (handleFileUpload maxFileSizeMB allowedFileTypes workerName st file now writeFails).2) := by
  refine ⟨?_, ?_, ?_⟩ <;> simp [handleFileUpload, hsize]

/-- C2 witness: an 11 MB file is rejected under the default 10 MB limit with
a message naming "10MB", leaving an empty state untouched and firing no
callback. -/
theorem C2_oversized_rejected_witness :
    handleFileUpload 10 defaultAllowedFileTypes "John Doe"
        ⟨none, none, []⟩ ⟨"big.pdf", 11534336, "application/pdf"⟩ "t" false =
      (⟨none, none, []⟩, [.alertMsg "File size must be less than 10MB"]) :=
  (C2_oversized_rejected 10 defaultAllowedFileTypes "John Doe"
    ⟨none, none, []⟩ ⟨"big.pdf", 11534336, "application/pdf"⟩ "t" false
    (by norm_num)).1

/-- C10: the size check runs before the allowed-type check: a file that is
both oversized and of a disallowed MIME type is rejected with the size-limit
alert alone, and no allowed-types message is produced for it. -/
theorem C10_size_check_first (maxFileSizeMB : Nat) (allowedFileTypes : List String)
    (workerName : String) (st : UploadState) (file : JsFile) (now : String)
    (writeFails : Bool) (hsize : file.size > maxFileSizeMB * 1024 * 1024)
    (htype : file.type ∉ allowedFileTypes) :
    (handleFileUpload maxFileSizeMB allowedFileTypes workerName st file now writeFails).2 =
      [.alertMsg ("File size must be less than " ++ toString maxFileSizeMB ++ "MB")] ∧
    ∀ m, Event.alertMsg m ∈
        (handleFileUpload maxFileSizeMB allowedFileTypes workerName st file now writeFails).2 →
      m = "File size must be less than " ++ toString maxFileSizeMB ++ "MB" := by
  constructor
  · simp [handleFileUpload, hsize]
  · intro m hm
    simp [handleFileUpload, hsize] at hm
    exact hm

/-- C10 witness: an 11 MB plain-text file under the default configuration
surfaces only the size-limit message. -/
theorem C10_size_check_first_witness :
    (handleFileUpload 10 defaultAllowedFileTypes "W"
        ⟨none, none, []⟩ ⟨"big.txt", 11534336, "text/plain"⟩ "t" false).2 =
      [.alertMsg "File size must be less than 10MB"] :=
  (C10_size_check_first 10 defaultAllowedFileTypes "W"
    ⟨none, none, []⟩ ⟨"big.txt", 11534336, "text/plain"⟩ "t" false
    (by norm_num) (by decide)).1

/-- C3 counterexample: the claim that the rejection message never contains
raw MIME strings fails for a non-default allow-list.  With
`allowedFileTypes = ["image/png"]`, a disallowed text/plain file is rejected
with the message "Allowed file types: image/png" — the raw MIME string
verbatim, since the extension switch has no human-readable name for it and
falls through to the type itself. -/
theorem C3_raw_mime_leaks :
    (handleFileUpload 10 ["image/png"] "W" ⟨none, none, []⟩
        ⟨"a.txt", 1000, "text/plain"⟩ "t" false).2 =
      [.alertMsg "Allowed file types: image/png"] ∧
    extOf "image/png" = "image/png" := by
  constructor <;> rfl

/-- C3 (amended): a file whose MIME type is not in the allow-list (and which
passes the size check) is rejected with an alert listing each allowed type
under the extension switch's rendering — the human-readable name for the
three known types (PDF, DOCX, DOC) and the raw MIME string for any other —
joined by ", "; the state is unchanged and neither callback fires. -/
theorem C3_disallowed_type_rejected (maxFileSizeMB : Nat)
    (allowedFileTypes : List String) (workerName : String) (st : UploadState)
    (file : JsFile) (now : String) (writeFails : Bool)
    (hsize : file.size ≤ maxFileSizeMB * 1024 * 1024)
    (htype : file.type ∉ allowedFileTypes) :
    handleFileUpload maxFileSizeMB allowedFileTypes workerName st file now writeFails =
      (st, [.alertMsg ("Allowed file types: " ++
        String.intercalate ", " (allowedFileTypes.map extOf))]) ∧
    (∀ fd, Event.fileUpload fd ∉
      (handleFileUpload maxFileSizeMB allowedFileTypes workerName st file now writeFails).2) ∧
    (∀ s, Event.statusChange s ∉
      (handleFileUpload maxFileSizeMB allowedFileTypes workerName st file now writeFails).2) := by
  have hlt : ¬ (file.size > maxFileSizeMB * 1024 * 1024) := by omega
  refine ⟨?_, ?_, ?_⟩ <;> simp [handleFileUpload, hlt, htype]

/-- C3 witness: a text/plain file under the default allow-list is rejected
with exactly "Allowed file types: PDF, DOCX, DOC" and no state change. -/
theorem C3_disallowed_type_rejected_witness :
    handleFileUpload 10 defaultAllowedFileTypes "W" ⟨none, none, []⟩
        ⟨"notes.txt", 1000, "text/plain"⟩ "t" false =
      (⟨none, none, []⟩, [.alertMsg "Allowed file types: PDF, DOCX, DOC"]) := by
  have h := (C3_disallowed_type_rejected 10 defaultAllowedFileTypes "W"
    ⟨none, none, []⟩ ⟨"notes.txt", 1000, "text/plain"⟩ "t" false
    (by norm_num) (by decide)).1
  simpa [defaultAllowedFileTypes, extOf] using h

/-- C7: when the localStorage write throws (quota exceeded or storage
unavailable), a valid upload still goes through: the uploaded-file state is
updated to the new record, the cache is left as it was, and the only
difference from a successful write is a logged warning before the same
`onFileUpload` and `onStatusChange` invocations. -/
theorem C7_write_failure_not_blocking (maxFileSizeMB : Nat)
    (allowedFileTypes : List String) (workerName : String) (st : UploadState)
    (file : JsFile) (now : String)
    (hsize : file.size ≤ maxFileSizeMB * 1024 * 1024)
    (htype : file.type ∈ allowedFileTypes) :
    handleFileUpload maxFileSizeMB allowedFileTypes workerName st file now true =
      ({ uploadedFile := some ⟨file.name, file.size, file.type, some now⟩,
         fileObject := some file, cache := st.cache },
       [.warn "Failed to save file data:",
        .fileUpload ⟨file.name, file.size, file.type, some now⟩,
        .statusChange "pending"]) ∧
    (handleFileUpload maxFileSizeMB allowedFileTypes workerName st file now true).1.uploadedFile =
      (handleFileUpload maxFileSizeMB allowedFileTypes workerName st file now false).1.uploadedFile := by
  have hlt : ¬ (file.size > maxFileSizeMB * 1024 * 1024) := by omega
  constructor
  · unfold handleFileUpload
    rw [if_neg hlt, if_neg (by simp [htype])]
    rfl
  · simp [handleFileUpload, hlt, htype]

/-- C7 witness: under a failing storage write, a 1 MiB PDF upload still
updates the state and fires both callbacks, with only a warning logged. -/
theorem C7_write_failure_not_blocking_witness :
    handleFileUpload 10 defaultAllowedFileTypes "John Doe" ⟨none, none, []⟩
        ⟨"r.pdf", 1048576, "application/pdf"⟩ "t" true =
      ({ uploadedFile := some ⟨"r.pdf", 1048576, "application/pdf", some "t"⟩,
         fileObject := some ⟨"r.pdf", 1048576, "application/pdf"⟩, cache := [] },
       [.warn "Failed to save file data:",
        .fileUpload ⟨"r.pdf", 1048576, "application/pdf", some "t"⟩,
        .statusChange "pending"]) :=
  (C7_write_failure_not_blocking 10 defaultAllowedFileTypes "John Doe"
    ⟨none, none, []⟩ ⟨"r.pdf", 1048576, "application/pdf"⟩ "t"
    (by norm_num) (by simp [defaultAllowedFileTypes])).1

/-- C8: the per-instance state machine of the uploaded-file state.  A valid
upload populates the state with the new record and resets status to pending
(replacing any prior record); an invalid upload leaves the whole state
exactly as it was, emitting only an alert; a populated state never becomes
empty again, neither through uploads nor through the mount-time cache load
(which only ever keeps or replaces a present record). -/
theorem C8_state_machine (maxFileSizeMB : Nat) (allowedFileTypes : List String)
    (workerName : String) (st : UploadState) (file : JsFile) (now : String)
    (writeFails : Bool) :
    (file.size ≤ maxFileSizeMB * 1024 * 1024 → file.type ∈ allowedFileTypes →
      (handleFileUpload maxFileSizeMB allowedFileTypes workerName st file now
          writeFails).1.uploadedFile =
        some ⟨file.name, file.size, file.type, some now⟩ ∧
      Event.statusChange "pending" ∈
        (handleFileUpload maxFileSizeMB allowedFileTypes workerName st file now
          writeFails).2) ∧
    (¬ (file.size ≤ maxFileSizeMB * 1024 * 1024 ∧ file.type ∈ allowedFileTypes) →
      (handleFileUpload maxFileSizeMB allowedFileTypes workerName st file now
          writeFails).1 = st ∧
      ∃ m, (handleFileUpload maxFileSizeMB allowedFileTypes workerName st file now
          writeFails).2 = [Event.alertMsg m]) ∧
    (st.uploadedFile ≠ none →
      (handleFileUpload maxFileSizeMB allowedFileTypes workerName st file now
          writeFails).1.uploadedFile ≠ none) ∧
    (∀ (cache : Storage) (rf : Option FileData),
      (loadSavedFile cache workerName rf).1 = none → rf = none) := by
  refine ⟨?_, ?_, ?_, ?_⟩
  · intro h1 h2
    have hlt : ¬ (file.size > maxFileSizeMB * 1024 * 1024) := by omega
    cases writeFails <;> simp [handleFileUpload, hlt, h2]
  · intro h
    by_cases hsz : file.size > maxFileSizeMB * 1024 * 1024
    · exact ⟨by simp [handleFileUpload, hsz],
        "File size must be less than " ++ toString maxFileSizeMB ++ "MB",
        by simp [handleFileUpload, hsz]⟩
    · have h2 : file.type ∉ allowedFileTypes := by
        intro hmem
        exact h ⟨by omega, hmem⟩
      exact ⟨by simp [handleFileUpload, hsz, h2],
        "Allowed file types: " ++ String.intercalate ", " (allowedFileTypes.map extOf),
        by simp [handleFileUpload, hsz, h2]⟩
  · intro hpop
    by_cases hsz : file.size > maxFileSizeMB * 1024 * 1024
    · simpa [handleFileUpload, hsz] using hpop
    · by_cases h2 : file.type ∈ allowedFileTypes
      · cases writeFails <;> simp [handleFileUpload, hsz, h2]
      · simpa [handleFileUpload, hsz, h2] using hpop
  · intro cache rf hnone
    unfold loadSavedFile at hnone
    rcases hget : cache.getItem (storageKey workerName) with _ | s
    · simpa [hget] using hnone
    · cases s with
      | unparseable => simpa [hget] using hnone
      | parsed j =>
        by_cases hv : validParsedFile j
        · simp [hget, hv] at hnone
        · simpa [hget, hv] using hnone

/-- C8 witness: from an empty state, an oversized upload stays empty and
alerts; a subsequent valid upload populates; from the populated state a new
valid upload replaces the record and stays populated. -/
theorem C8_state_machine_witness :
    (handleFileUpload 10 defaultAllowedFileTypes "W" ⟨none, none, []⟩
        ⟨"big.pdf", 11534336, "application/pdf"⟩ "t" false).1 =
      UploadState.mk none none [] ∧
    (handleFileUpload 10 defaultAllowedFileTypes "W"
        ⟨some ⟨"old.pdf", 5, "application/pdf", some "t0"⟩,
         some ⟨"old.pdf", 5, "application/pdf"⟩, []⟩
        ⟨"new.pdf", 6, "application/pdf"⟩ "t1" false).1.uploadedFile =
      some ⟨"new.pdf", 6, "application/pdf", some "t1"⟩ := by
  constructor
  · exact (C8_state_machine 10 defaultAllowedFileTypes "W" ⟨none, none, []⟩
      ⟨"big.pdf", 11534336, "application/pdf"⟩ "t" false).2.1
      (by rintro ⟨h, -⟩; norm_num at h) |>.1
  · exact ((C8_state_machine 10 defaultAllowedFileTypes "W"
      ⟨some ⟨"old.pdf", 5, "application/pdf", some "t0"⟩,
       some ⟨"old.pdf", 5, "application/pdf"⟩, []⟩
      ⟨"new.pdf", 6, "application/pdf"⟩ "t1" false).1
      (by norm_num) (by simp [defaultAllowedFileTypes])).1

/-- C4 counterexample: the cache round-trip fails for a successful upload of
a zero-byte file.  A 0-byte PDF passes validation and is stored under
`medical_result_John_Doe` (both callbacks fire), but the mount-time check
treats a 0 `size` field as falsy, so a fresh mount does not restore the
stored metadata and instead keeps the caller-supplied resultFile. -/
theorem C4_zero_byte_upload_not_restored :
    (handleFileUpload 10 defaultAllowedFileTypes "John Doe" ⟨none, none, []⟩
        ⟨"empty.pdf", 0, "application/pdf"⟩ "t0" false).2 =
      [.fileUpload ⟨"empty.pdf", 0, "application/pdf", some "t0"⟩,
       .statusChange "pending"] ∧
    (handleFileUpload 10 defaultAllowedFileTypes "John Doe" ⟨none, none, []⟩
        ⟨"empty.pdf", 0, "application/pdf"⟩ "t0" false).1.cache.getItem
        "medical_result_John_Doe" =
      some (.parsed (jsonOfFileData ⟨"empty.pdf", 0, "application/pdf", some "t0"⟩)) ∧
    (loadSavedFile
        (handleFileUpload 10 defaultAllowedFileTypes "John Doe" ⟨none, none, []⟩
          ⟨"empty.pdf", 0, "application/pdf"⟩ "t0" false).1.cache
        "John Doe" (some ⟨"caller.pdf", 5, "application/pdf", none⟩)).1 =
      some ⟨"caller.pdf", 5, "application/pdf", none⟩ := by
  refine ⟨rfl, rfl, rfl⟩

/-- C4 (amended): after a successful upload whose record has a non-empty
name, a non-zero size and a non-empty type, the record is stored as JSON
under `medical_result_<worker name with whitespace runs replaced by
underscores>`, and a fresh mount for a worker with the same name restores
exactly that record as the displayed uploaded file, overriding any
caller-supplied resultFile and leaving the cache untouched.  (A record
failing the structural check — e.g. size 0 — is stored but not restored.) -/
theorem C4_cache_round_trip (maxFileSizeMB : Nat) (allowedFileTypes : List String)
    (workerName : String) (st : UploadState) (file : JsFile) (now : String)
    (rf : Option FileData)
    (hsize : file.size ≤ maxFileSizeMB * 1024 * 1024)
    (htype : file.type ∈ allowedFileTypes)
    (hname : file.name ≠ "") (hsz : file.size ≠ 0) (hty : file.type ≠ "") :
    (handleFileUpload maxFileSizeMB allowedFileTypes workerName st file now
        false).1.cache.getItem (storageKey workerName) =
      some (.parsed (jsonOfFileData ⟨file.name, file.size, file.type, some now⟩)) ∧
    loadSavedFile
        (handleFileUpload maxFileSizeMB allowedFileTypes workerName st file now
          false).1.cache workerName rf =
      (some ⟨file.name, file.size, file.type, some now⟩,
       (handleFileUpload maxFileSizeMB allowedFileTypes workerName st file now
         false).1.cache) := by
  have hlt : ¬ (file.size > maxFileSizeMB * 1024 * 1024) := by omega
  have hcache : (handleFileUpload maxFileSizeMB allowedFileTypes workerName st file now
      false).1.cache =
      st.cache.setItem (storageKey workerName)
        (.parsed (jsonOfFileData ⟨file.name, file.size, file.type, some now⟩)) := by
    simp [handleFileUpload, hlt, htype]
  have hget := Storage.getItem_setItem st.cache (storageKey workerName)
    (.parsed (jsonOfFileData ⟨file.name, file.size, file.type, some now⟩))
  have hv := validParsedFile_jsonOfFileData ⟨file.name, file.size, file.type, some now⟩
    hname hsz hty
  constructor
  · rw [hcache]; exact hget
  · rw [hcache]
    simp [loadSavedFile, hget, hv, fileDataOfJson_jsonOfFileData]

/-- C4 witness: a 2 MiB "report.pdf" uploaded for "John Doe" is restored on
a fresh mount for "John Doe" even though the caller supplies a different
resultFile, and the cache is left as written. -/
theorem C4_cache_round_trip_witness :
    loadSavedFile
        (handleFileUpload 10 defaultAllowedFileTypes "John Doe" ⟨none, none, []⟩
          ⟨"report.pdf", 2097152, "application/pdf"⟩ "t0" false).1.cache
        "John Doe" (some ⟨"caller.pdf", 5, "application/pdf", none⟩) =
      (some ⟨"report.pdf", 2097152, "application/pdf", some "t0"⟩,
       (handleFileUpload 10 defaultAllowedFileTypes "John Doe" ⟨none, none, []⟩
         ⟨"report.pdf", 2097152, "application/pdf"⟩ "t0" false).1.cache) :=
  (C4_cache_round_trip 10 defaultAllowedFileTypes "John Doe" ⟨none, none, []⟩
    ⟨"report.pdf", 2097152, "application/pdf"⟩ "t0"
    (some ⟨"caller.pdf", 5, "application/pdf", none⟩)
    (by norm_num) (by simp [defaultAllowedFileTypes])
    (by decide) (by norm_num) (by decide)).2

/-- C5 counterexample: a cache entry that parses as JSON but lacks the
required fields is NOT deleted on mount.  An entry missing `size` makes the
load fall back to the caller-supplied file (here none), but the resulting
cache still contains the malformed entry: only the JSON-parse-failure
branch deletes, the missing-fields branch does not. -/
theorem C5_invalid_entry_not_deleted :
    loadSavedFile
        [("medical_result_W",
          .parsed (.obj [("name", .str "a.pdf"), ("type", .str "application/pdf")]))]
        "W" none =
      (none,
       [("medical_result_W",
         .parsed (.obj [("name", .str "a.pdf"), ("type", .str "application/pdf")]))]) := by
  rfl

/-- C5 (amended): the mount-time load never throws; when the stored string
fails to parse as JSON, the cache entry is deleted and the displayed file
falls back to the caller-supplied resultFile (or the empty state); when the
string parses but fails the structural check (truthy name, size and type),
the displayed file falls back the same way but the entry is left in the
cache; when no entry exists, the caller-supplied resultFile is kept. -/
theorem C5_malformed_cache_recovery (cache : Storage) (workerName : String)
    (rf : Option FileData) :
    (cache.getItem (storageKey workerName) = some .unparseable →
      loadSavedFile cache workerName rf =
        (rf, cache.removeItem (storageKey workerName))) ∧
    (∀ j, cache.getItem (storageKey workerName) = some (.parsed j) →
      validParsedFile j = false →
      loadSavedFile cache workerName rf = (rf, cache)) ∧
    (cache.getItem (storageKey workerName) = none →
      loadSavedFile cache workerName rf = (rf, cache)) := by
  refine ⟨?_, ?_, ?_⟩
  · intro h; simp [loadSavedFile, h]
  · intro j hj hv; simp [loadSavedFile, hj, hv]
  · intro h; simp [loadSavedFile, h]

/-- C5 witness: an unparseable entry under worker "W"'s key is deleted on
mount and the caller-supplied file is displayed. -/
theorem C5_malformed_cache_recovery_witness :
    loadSavedFile [("medical_result_W", Stored.unparseable)] "W"
        (some ⟨"caller.pdf", 5, "application/pdf", none⟩) =
      (some ⟨"caller.pdf", 5, "application/pdf", none⟩, []) := by
  have h := (C5_malformed_cache_recovery [("medical_result_W", Stored.unparseable)]
    "W" (some ⟨"caller.pdf", 5, "application/pdf", none⟩)).1 (by rfl)
  exact h

/-- C6 counterexample: in the most complete revision the badge lookup
`statusMap[status]` has no fallback and its record has no "unknown" entry:
for the status strings "unknown" and "failed" it yields no display tuple at
all (JavaScript `undefined`, so rendering would throw), contradicting the
claim that any unrecognized status maps to a default "unknown" tuple at
both mapping sites. -/
theorem C6_no_unknown_fallback :
    statusMap3 "unknown" = none ∧ statusMap3 "failed" = none :=
  ⟨rfl, rfl⟩

/-- C6 (amended): the status mapping is pure, so repeated application is
identical by definition.  In the earlier revision the badge lookup
(`statusMap[status] ?? statusMap.unknown`) is total: every string outside
the five keys maps to the "unknown" tuple.  In the most complete revision
the derived `previewColor` tuple is total (everything but accepted and
pending gets the red tuple), but the primary badge lookup yields a tuple
exactly for accepted, pending and replace — an unrecognized status gets no
tuple there. -/
theorem C6_status_mapping_total (s : String) :
    (s ≠ "accepted" → s ≠ "pending" → s ≠ "failed" → s ≠ "replace" → s ≠ "unknown" →
      statusMapFull s =
        ⟨"default", "Unknown", "AlertCircle", "bg-gray-100", "text-gray-800"⟩) ∧
    ((statusMap3 s).isSome = true ↔
      s = "accepted" ∨ s = "pending" ∨ s = "replace") ∧
    (s ≠ "accepted" → s ≠ "pending" →
      previewColor s = ⟨"#ef4444", "#ef4444", "#ffffff"⟩) := by
  refine ⟨?_, ?_, ?_⟩
  · intro h1 h2 h3 h4 h5
    have e1 : (s == "accepted") = false := by simp [h1]
    have e2 : (s == "pending") = false := by simp [h2]
    have e3 : (s == "failed") = false := by simp [h3]
    have e4 : (s == "replace") = false := by simp [h4]
    have e5 : (s == "unknown") = false := by simp [h5]
    simp [statusMapFull, statusMapFullList, List.lookup, e1, e2, e3, e4, e5]
  · by_cases h1 : s = "accepted"
    · simp [statusMap3, statusMap3List, List.lookup, h1]
    · by_cases h2 : s = "pending"
      · simp [statusMap3, statusMap3List, List.lookup, h2]
      · by_cases h3 : s = "replace"
        · simp [statusMap3, statusMap3List, List.lookup, h3]
        · have e1 : (s == "accepted") = false := by simp [h1]
          have e2 : (s == "pending") = false := by simp [h2]
          have e3 : (s == "replace") = false := by simp [h3]
          simp [statusMap3, statusMap3List, List.lookup, e1, e2, e3, h1, h2, h3]
  · intro h1 h2
    simp [previewColor, h1, h2]

/-- C6 witness: the arbitrary unrecognized status "bogus" gets the unknown
tuple from the earlier revision's lookup and the red default from
previewColor. -/
theorem C6_status_mapping_total_witness :
    statusMapFull "bogus" =
      ⟨"default", "Unknown", "AlertCircle", "bg-gray-100", "text-gray-800"⟩ ∧
    previewColor "bogus" = ⟨"#ef4444", "#ef4444", "#ffffff"⟩ :=
  ⟨(C6_status_mapping_total "bogus").1 (by decide) (by decide) (by decide)
      (by decide) (by decide),
   (C6_status_mapping_total "bogus").2.2 (by decide) (by decide)⟩

/-- C9: handleFilePreview branches on the live handle.  With no uploaded
file it does nothing; with a live handle it opens a PDF via a temporary
blob URL and any other type via the external document viewer after a data
URL read; with metadata only it alerts that preview is unavailable, using
one message when the surviving metadata is a PDF and a different one
otherwise. -/
theorem C9_preview_branches (uploadedFile : Option FileData)
    (fileObject : Option JsFile) :
    (uploadedFile = none → handleFilePreview uploadedFile fileObject = .nothing) ∧
    (∀ uf fo, uploadedFile = some uf → fileObject = some fo →
      handleFilePreview uploadedFile fileObject =
        if fo.type = "application/pdf" then .openBlobUrl fo
        else .openGoogleViewer fo) ∧
    (∀ uf, uploadedFile = some uf → fileObject = none →
      handleFilePreview uploadedFile fileObject =
        if uf.type = "application/pdf" then
          .alertMsg
            "Cannot preview DOC/DOCX after reload. PDF preview only works before reload."
        else
          .alertMsg
            "Preview not available for DOC/DOCX after reload due to browser limitations.") ∧
    ("Cannot preview DOC/DOCX after reload. PDF preview only works before reload." ≠
      "Preview not available for DOC/DOCX after reload due to browser limitations.") := by
  refine ⟨?_, ?_, ?_, by decide⟩
  · rintro rfl; rfl
  · rintro uf fo rfl rfl; rfl
  · rintro uf rfl rfl; rfl

/-- C9 witness: metadata-only PDF after a reload gets the PDF-specific
unavailability notice. -/
theorem C9_preview_branches_witness :
    handleFilePreview (some ⟨"report.pdf", 5, "application/pdf", some "t"⟩) none =
      .alertMsg
        "Cannot preview DOC/DOCX after reload. PDF preview only works before reload." := by
  have h := (C9_preview_branches
    (some ⟨"report.pdf", 5, "application/pdf", some "t"⟩) none).2.2.1
    ⟨"report.pdf", 5, "application/pdf", some "t"⟩ rfl rfl
  simpa using h
